import Mathlib

/-!
Shallow embedding of the BeagleBone Black I2C bus component
(`bbb-i2c.hpp` / `bbb-i2c.cpp`, namespace `bbbi2c`).

The platform calls (`::open`, `ioctl`, `::read`, `::write`, `::close`) are
external collaborators.  Each public operation takes an explicit environment
record that fixes the results those platform calls would return during that
operation, and every operation additionally returns the list of platform
calls it performed (`Ev`), so that properties about which calls happen, in
which order, and with which arguments can be stated and proved.

Machine integers: the C++ `int` results of the platform calls are modelled
as `Int` (no arithmetic is performed on them, only comparisons), `uint8_t`
as `UInt8`, buffers (`uint8_t*` plus a length) as `List UInt8`.
C++ exceptions are modelled as an `Option I2CError` component of each
operation's result: `some e` means the call exited by throwing `e`.
-/

/-- BBB I2C bus file name `/dev/i2c-0` (macro `BBB_I2C0_FILE`). -/
def BBB_I2C0_FILE : String := "/dev/i2c-0"

/-- BBB I2C bus file name `/dev/i2c-1` (macro `BBB_I2C1_FILE`). -/
def BBB_I2C1_FILE : String := "/dev/i2c-1"

/-- BBB I2C bus file name `/dev/i2c-2` (macro `BBB_I2C2_FILE`). -/
def BBB_I2C2_FILE : String := "/dev/i2c-2"

namespace bbbi2c

/-- Outcome of one platform `::close` call: success (result `>= 0`),
failure with `errno == EINTR`, or failure with any other `errno`. -/
inductive CloseRes where
  | ok
  | eintr
  | other
deriving DecidableEq, Repr

/-- A platform call performed by the component, with its arguments and the
result the platform reported.  `openCall` records `::open(path, O_RDWR)`,
`ioctlCall` records `ioctl(fd, I2C_SLAVE, addr)`, `writeCall` records
`::write(fd, dat, len)` (with the bytes handed to the platform), `readCall`
records `::read(fd, buf, len)`, and `closeCall` records `::close(fd)`. -/
inductive Ev where
  | openCall (path : String) (res : Int)
  | ioctlCall (fd : Int) (addr : UInt8) (res : Int)
  | writeCall (fd : Int) (dat : List UInt8) (len : Int) (res : Int)
  | readCall (fd : Int) (len : Int) (res : Int)
  | closeCall (fd : Int) (res : CloseRes)
deriving DecidableEq, Repr

/-- Whether an event is a platform `::read` call. -/
def Ev.isReadCall : Ev → Bool
  | Ev.readCall _ _ _ => true
  | _ => false

/-- Whether an event is a platform `::write` call. -/
def Ev.isWriteCall : Ev → Bool
  | Ev.writeCall _ _ _ _ => true
  | _ => false

/-- Whether an event is a platform `::close` call. -/
def Ev.isCloseCall : Ev → Bool
  | Ev.closeCall _ _ => true
  | _ => false

/-- The two exception types of the source: `I2CException` itself
(`generic`) and its subclass `I2CNotFoundException` (`notFound`). -/
inductive ExcKind where
  | generic
  | notFound
deriving DecidableEq, Repr

/-- Source class `I2CException`: fields `message`, `procname`, `timeof_exc`. -/
structure I2CException where
  message : String
  procname : String
  timeof_exc : Nat
deriving DecidableEq, Repr

/-- The constructor `I2CException(const string and msg, const string and proc)`:
sets `message = msg`, `procname = proc`, `timeof_exc = time(nullptr)`.
The current time is an explicit input `now`. -/
def I2CException.make (msg proc : String) (now : Nat) : I2CException :=
  { message := msg, procname := proc, timeof_exc := now }

/-- Accessor `const char* I2CException::what()`: returns `message`. -/
def I2CException.what (e : I2CException) : String :=
  e.message

/-- Accessor `string I2CException::why()`: returns `message`. -/
def I2CException.why (e : I2CException) : String :=
  e.message

/-- Accessor `string I2CException::who()`: returns `procname`. -/
def I2CException.who (e : I2CException) : String :=
  e.procname

/-- Accessor `time_t I2CException::when()`: returns `timeof_exc`. -/
def I2CException.when (e : I2CException) : Nat :=
  e.timeof_exc

/-- A thrown exception: its dynamic type (`I2CException` or
`I2CNotFoundException`) together with the exception object. -/
structure I2CError where
  kind : ExcKind
  exc : I2CException
deriving DecidableEq, Repr

/-- Source class `I2CBus`: the bus file name and the file descriptor
(`-1` is the "not open" sentinel, set by the constructor). -/
structure I2CBus where
  busfile : String
  file : Int
deriving DecidableEq, Repr

/-- Constructor `I2CBus::I2CBus(const char* bus)`: stores the file name and
initializes the descriptor to `-1`. -/
def I2CBus.mkNew (bus : String) : I2CBus :=
  { busfile := bus, file := -1 }

/-- One uppercase hexadecimal digit, as produced by `std::hex` with
`std::uppercase`. -/
def hexDigit (n : Nat) : Char :=
  if n < 10 then Char.ofNat (48 + n) else Char.ofNat (55 + n)

/-- Formatting of a `uint8_t` under
`hex, uppercase, setfill(0), setw(2)`: two uppercase hex digits. -/
def hex2 (b : UInt8) : String :=
  String.mk [hexDigit (b.toNat / 16), hexDigit (b.toNat % 16)]

/-- The platform calls performed by `TEMP_FAILURE_RETRY (::close(file))`:
a do-while loop that re-executes `::close` as long as the result is `-1`
with `errno == EINTR`.  The argument list gives the successive outcomes the
platform returns; the loop consumes entries up to and including the first
outcome that is not `eintr`. -/
def tfrEvents (fd : Int) : List CloseRes → List Ev
  | [] => []
  | CloseRes.eintr :: rs => Ev.closeCall fd CloseRes.eintr :: tfrEvents fd rs
  | r :: _ => [Ev.closeCall fd r]

/-- Method `void I2CBus::Close()`: if `file != -1`, calls `::close(file)`; when
that fails with `errno == EINTR` it runs `TEMP_FAILURE_RETRY (::close(file))`;
in every case it then sets `file = -1`.  If `file == -1` it does nothing.
`tr` lists the outcomes of the successive platform `::close` calls (a missing
entry stands for a success).  Returns the new bus state and the platform
calls performed.  `Close` throws nothing. -/
def I2CBus.Close (bus : I2CBus) (tr : List CloseRes) : I2CBus × List Ev :=
  if bus.file = -1 then
    (bus, [])
  else
    let r := tr.headD CloseRes.ok
    let retries := if r = CloseRes.eintr then tfrEvents bus.file tr.tail else []
    ({ bus with file := -1 }, Ev.closeCall bus.file r :: retries)

/-- Platform behaviour during one `I2CBus::Open` call: the result of
`::open(busfile, O_RDWR)`, the result of `ioctl(file, I2C_SLAVE, addr)`,
the `::close` outcomes consumed if `Open` has to close on the ioctl-failure
path, and the current time used when an exception is constructed. -/
structure OpenEnv where
  openRes : Int
  ioctlRes : Int
  closeTr : List CloseRes
  now : Nat
deriving Repr

/-- Result of an operation: the bus state on exit, the operation's output
(e.g. the caller's buffer after the call), the platform calls performed, and
`some e` when the operation exited by throwing `e` (`none` = normal return). -/
structure OpResult (α : Type) where
  bus : I2CBus
  out : α
  evs : List Ev
  err : Option I2CError
deriving Repr

/-- Method `void I2CBus::Open(uint8_t addr)`:
`file = ::open(busfile, O_RDWR)`; if `file < 0` throws
`I2CException("I2CBus::Open(addr)", "Unable to open I2C Bus file " + busfile)`;
otherwise if `ioctl(file, I2C_SLAVE, addr) < 0` calls `this->Close()` and
throws `I2CNotFoundException("I2CBus::Open(addr)",
"Unable to find device address 0x" + hex2 addr)`.
(The call sites pass the procedure name as the first constructor argument
`msg` and the descriptive text as the second argument `proc`; the embedding
reproduces the arguments exactly as written in the source.) -/
def I2CBus.Open (bus : I2CBus) (addr : UInt8) (env : OpenEnv) : OpResult Unit :=
  let bus1 : I2CBus := { bus with file := env.openRes }
  if bus1.file < 0 then
    { bus := bus1, out := (),
      evs := [Ev.openCall bus.busfile env.openRes],
      err := some { kind := ExcKind.generic,
                    exc := I2CException.make "I2CBus::Open(addr)"
                             ("Unable to open I2C Bus file " ++ bus.busfile) env.now } }
  else if env.ioctlRes < 0 then
    let c := bus1.Close env.closeTr
    { bus := c.1, out := (),
      evs := Ev.openCall bus.busfile env.openRes ::
               Ev.ioctlCall bus1.file addr env.ioctlRes :: c.2,
      err := some { kind := ExcKind.notFound,
                    exc := I2CException.make "I2CBus::Open(addr)"
                             ("Unable to find device address 0x" ++ hex2 addr) env.now } }
  else
    { bus := bus1, out := (),
      evs := [Ev.openCall bus.busfile env.openRes,
              Ev.ioctlCall bus1.file addr env.ioctlRes],
      err := none }

/-- Effect of `::read(file, data, len)` on the caller's buffer: the bytes
the platform actually transferred overwrite the front of the buffer, the
rest is untouched. -/
def storeBytes (buf bytes : List UInt8) : List UInt8 :=
  bytes ++ buf.drop bytes.length

/-- Platform behaviour during one `I2CBus::Read` call: the behaviour of the
inner `Open`, the count returned by `::read`, the bytes `::read` deposited
in the buffer, and the `::close` outcomes consumed by the final `Close`. -/
structure ReadEnv where
  openEnv : OpenEnv
  readRet : Int
  readBytes : List UInt8
  closeTr : List CloseRes
deriving Repr

/-- Method `void I2CBus::Read(uint8_t* data, int len, uint8_t addr)`:
locks the mutex, `Open(addr)`, `recvd = ::read(file, data, len)`,
`Close()`, and if `recvd != len` throws
`I2CException("I2CBus::Read(data, len, addr)", "Read length error.")`. -/
def I2CBus.Read (bus : I2CBus) (buf : List UInt8) (len : Int) (addr : UInt8)
    (env : ReadEnv) : OpResult (List UInt8) :=
  let o := bus.Open addr env.openEnv
  match o.err with
  | some e => { bus := o.bus, out := buf, evs := o.evs, err := some e }
  | none =>
    let recvd := env.readRet
    let buf1 := storeBytes buf env.readBytes
    let c := o.bus.Close env.closeTr
    let evs := o.evs ++ Ev.readCall o.bus.file len recvd :: c.2
    if recvd ≠ len then
      { bus := c.1, out := buf1, evs := evs,
        err := some { kind := ExcKind.generic,
                      exc := I2CException.make "I2CBus::Read(data, len, addr)"
                               "Read length error." env.openEnv.now } }
    else
      { bus := c.1, out := buf1, evs := evs, err := none }

/-- Platform behaviour during one `I2CBus::Write` call. -/
structure WriteEnv where
  openEnv : OpenEnv
  writeRet : Int
  closeTr : List CloseRes
deriving Repr

/-- Method `void I2CBus::Write(uint8_t* data, int len, uint8_t addr)`:
locks the mutex, `Open(addr)`, `sent = ::write(file, data, len)`,
`Close()`, and if `sent != len` throws
`I2CException("I2CBus::Write(data, len, addr)", "Write length error.")`. -/
def I2CBus.Write (bus : I2CBus) (data : List UInt8) (len : Int) (addr : UInt8)
    (env : WriteEnv) : OpResult Unit :=
  let o := bus.Open addr env.openEnv
  match o.err with
  | some e => { bus := o.bus, out := (), evs := o.evs, err := some e }
  | none =>
    let sent := env.writeRet
    let c := o.bus.Close env.closeTr
    let evs := o.evs ++ Ev.writeCall o.bus.file data len sent :: c.2
    if sent ≠ len then
      { bus := c.1, out := (), evs := evs,
        err := some { kind := ExcKind.generic,
                      exc := I2CException.make "I2CBus::Write(data, len, addr)"
                               "Write length error." env.openEnv.now } }
    else
      { bus := c.1, out := (), evs := evs, err := none }

/-- Method `void I2CBus::Write(const string and dat, uint8_t addr)` (the string
overload): `len = dat.size()`, locks the mutex, `Open(addr)`,
`sent = ::write(file, dat.c_str(), len)`, `Close()`, and if `sent != len`
throws `I2CException("I2CBus::Write(dat, addr)", "Write length error.")`.
The `std::string` payload is a byte string, modelled as `List UInt8`. -/
def I2CBus.WriteStr (bus : I2CBus) (dat : List UInt8) (addr : UInt8)
    (env : WriteEnv) : OpResult Unit :=
  let len : Int := dat.length
  let o := bus.Open addr env.openEnv
  match o.err with
  | some e => { bus := o.bus, out := (), evs := o.evs, err := some e }
  | none =>
    let sent := env.writeRet
    let c := o.bus.Close env.closeTr
    let evs := o.evs ++ Ev.writeCall o.bus.file dat len sent :: c.2
    if sent ≠ len then
      { bus := c.1, out := (), evs := evs,
        err := some { kind := ExcKind.generic,
                      exc := I2CException.make "I2CBus::Write(dat, addr)"
                               "Write length error." env.openEnv.now } }
    else
      { bus := c.1, out := (), evs := evs, err := none }

/-- Platform behaviour during one `I2CBus::Xfer` call: the inner `Open`,
the count returned by `::write`, the `::close` outcomes consumed when the
write count mismatches (`writeCloseTr`), the count returned by `::read`,
the bytes it deposited, and the `::close` outcomes of the normal-path
`Close` (`closeTr`). -/
structure XferEnv where
  openEnv : OpenEnv
  writeRet : Int
  writeCloseTr : List CloseRes
  readRet : Int
  readBytes : List UInt8
  closeTr : List CloseRes
deriving Repr

/-- Method `void I2CBus::Xfer(uint8_t* odat, int olen, uint8_t* idat, int ilen,
uint8_t i2caddr)`: locks the mutex, `Open(i2caddr)`,
`count = ::write(file, odat, olen)`; if `count != olen` calls `Close()` and
throws `I2CException("I2CConnection::Xfer(odat, olen, idat, ilen, i2caddr)",
"Write length error.")`; otherwise `count = ::read(file, idat, ilen)`,
`Close()`, and if `count != ilen` throws
`I2CException("I2CConnection::Xfer(odat, olen, idat, ilen, i2caddr)",
"Read length error.")`. -/
def I2CBus.Xfer (bus : I2CBus) (odat : List UInt8) (olen : Int)
    (ibuf : List UInt8) (ilen : Int) (i2caddr : UInt8)
    (env : XferEnv) : OpResult (List UInt8) :=
  let o := bus.Open i2caddr env.openEnv
  match o.err with
  | some e => { bus := o.bus, out := ibuf, evs := o.evs, err := some e }
  | none =>
    let count := env.writeRet
    if count ≠ olen then
      let c := o.bus.Close env.writeCloseTr
      { bus := c.1, out := ibuf,
        evs := o.evs ++ Ev.writeCall o.bus.file odat olen count :: c.2,
        err := some { kind := ExcKind.generic,
                      exc := I2CException.make
                               "I2CConnection::Xfer(odat, olen, idat, ilen, i2caddr)"
                               "Write length error." env.openEnv.now } }
    else
      let count2 := env.readRet
      let ibuf1 := storeBytes ibuf env.readBytes
      let c := o.bus.Close env.closeTr
      let evs := o.evs ++ Ev.writeCall o.bus.file odat olen count ::
                   Ev.readCall o.bus.file ilen count2 :: c.2
      if count2 ≠ ilen then
        { bus := c.1, out := ibuf1, evs := evs,
          err := some { kind := ExcKind.generic,
                        exc := I2CException.make
                                 "I2CConnection::Xfer(odat, olen, idat, ilen, i2caddr)"
                                 "Read length error." env.openEnv.now } }
      else
        { bus := c.1, out := ibuf1, evs := evs, err := none }

/-- Modelled from the spec: the overload
`void I2CBus::Xfer(uint8_t addr, uint8_t* idat, int ilen, uint8_t i2caddr)`
is declared in `bbb-i2c.hpp` (line 108) but has no definition anywhere in the
repository's source.  The spec describes it as a "convenience variant;
writes a single address byte, then reads inLength bytes, same semantics as"
the general transfer, so it is modelled as the general `Xfer` applied to the
one-byte output buffer `[addr]` with output length 1. -/
def I2CBus.XferAddr (bus : I2CBus) (addr : UInt8) (ibuf : List UInt8)
    (ilen : Int) (i2caddr : UInt8) (env : XferEnv) : OpResult (List UInt8) :=
  bus.Xfer [addr] 1 ibuf ilen i2caddr env

/-- An action of a thread executing one public operation: acquiring the
bus mutex (`lock_guard` construction), releasing it (destruction), or one
platform call made while holding it. -/
inductive LAct where
  | lock
  | unlock
  | act (e : Ev)
deriving DecidableEq, Repr

/-- The action sequence of one public operation as seen by the scheduler:
`lock_guard<mutex> lck(mtx)` on entry, the platform calls of the body, and
the release of the mutex on exit (normal return or throw). -/
def opSession (body : List Ev) : List LAct :=
  LAct.lock :: (body.map LAct.act ++ [LAct.unlock])

/-- The action sequence of one `I2CBus::Write` call under a given
environment, including its mutex acquisition and release. -/
def writeSession (bus : I2CBus) (data : List UInt8) (len : Int) (addr : UInt8)
    (env : WriteEnv) : List LAct :=
  opSession (bus.Write data len addr env).evs

/-- Interleaving relation `Ilv xs ys zs`: `zs` is an interleaving of the action sequences of two
threads, thread `false` performing `xs` and thread `true` performing `ys`,
each thread's actions in order; each element of `zs` is tagged with the
thread that performed it. -/
inductive Ilv : List LAct → List LAct → List (Bool × LAct) → Prop where
  | nil : Ilv [] [] []
  | left {x : LAct} {xs ys : List LAct} {zs : List (Bool × LAct)} :
      Ilv xs ys zs → Ilv (x :: xs) ys ((false, x) :: zs)
  | right {y : LAct} {xs ys : List LAct} {zs : List (Bool × LAct)} :
      Ilv xs ys zs → Ilv xs (y :: ys) ((true, y) :: zs)

/-- A tagged trace respects the mutex semantics of `std::mutex`: starting
from owner state `o` (`none` = free), a `lock` only happens when the mutex
is free and makes the acquiring thread the owner, an `unlock` only happens
by the owner and frees it. -/
def mutexOk : Option Bool → List (Bool × LAct) → Bool
  | _, [] => true
  | none, (t, LAct.lock) :: zs => mutexOk (some t) zs
  | some _, (_, LAct.lock) :: _ => false
  | some o, (t, LAct.unlock) :: zs => (t == o) && mutexOk none zs
  | none, (_, LAct.unlock) :: _ => false
  | o, (_, LAct.act _) :: zs => mutexOk o zs

/-- Tag every action of a sequence with the thread `t` that performs it. -/
def tagAll (t : Bool) (xs : List LAct) : List (Bool × LAct) :=
  xs.map (fun a => (t, a))

/-- The exception thrown by `Open` when `::open` fails. -/
def excOpenFail (busfile : String) (now : Nat) : I2CError :=
  { kind := ExcKind.generic,
    exc := I2CException.make "I2CBus::Open(addr)"
             ("Unable to open I2C Bus file " ++ busfile) now }

/-- The exception thrown by `Open` when `ioctl(file, I2C_SLAVE, addr)` fails. -/
def excNotFound (addr : UInt8) (now : Nat) : I2CError :=
  { kind := ExcKind.notFound,
    exc := I2CException.make "I2CBus::Open(addr)"
             ("Unable to find device address 0x" ++ hex2 addr) now }

/-- The exception thrown by `Read` on a read-count mismatch. -/
def excReadLen (now : Nat) : I2CError :=
  { kind := ExcKind.generic,
    exc := I2CException.make "I2CBus::Read(data, len, addr)" "Read length error." now }

/-- The exception thrown by the buffer `Write` on a write-count mismatch. -/
def excWriteLen (now : Nat) : I2CError :=
  { kind := ExcKind.generic,
    exc := I2CException.make "I2CBus::Write(data, len, addr)" "Write length error." now }

/-- The exception thrown by the string `Write` on a write-count mismatch. -/
def excWriteStrLen (now : Nat) : I2CError :=
  { kind := ExcKind.generic,
    exc := I2CException.make "I2CBus::Write(dat, addr)" "Write length error." now }

/-- The exception thrown by `Xfer` on a write-count mismatch. -/
def excXferWriteLen (now : Nat) : I2CError :=
  { kind := ExcKind.generic,
    exc := I2CException.make "I2CConnection::Xfer(odat, olen, idat, ilen, i2caddr)"
             "Write length error." now }

/-- The exception thrown by `Xfer` on a read-count mismatch. -/
def excXferReadLen (now : Nat) : I2CError :=
  { kind := ExcKind.generic,
    exc := I2CException.make "I2CConnection::Xfer(odat, olen, idat, ilen, i2caddr)"
             "Read length error." now }

/-- A freshly constructed bus on `/dev/i2c-2`, used by concrete instances. -/
def sBus : I2CBus :=
  I2CBus.mkNew BBB_I2C2_FILE

/-- A platform behaviour where `::open` returns descriptor 3 and the
address binding succeeds. -/
def sOpenOk : OpenEnv :=
  { openRes := 3, ioctlRes := 0, closeTr := [], now := 1000 }

/-- A platform behaviour where `::open` succeeds with descriptor 3 but the
device does not acknowledge its address (`ioctl` returns -1). -/
def sOpenNotFound : OpenEnv :=
  { openRes := 3, ioctlRes := -1, closeTr := [], now := 1000 }

/-- A platform behaviour for a read whose address binding fails: `::open`
succeeds with descriptor 3, the device does not acknowledge. -/
def sReadNotFound : ReadEnv :=
  { openEnv := sOpenNotFound, readRet := 0, readBytes := [], closeTr := [] }

/-- A platform behaviour for a successful 4-byte read. -/
def sReadOk : ReadEnv :=
  { openEnv := sOpenOk, readRet := 4, readBytes := [1, 2, 3, 4], closeTr := [] }

/-- A platform behaviour where a 4-byte read reports only 2 bytes. -/
def sReadShort : ReadEnv :=
  { openEnv := sOpenOk, readRet := 2, readBytes := [0xAA, 0xBB], closeTr := [] }

/-- A platform behaviour for a successful 1-byte write. -/
def sWriteOk : WriteEnv :=
  { openEnv := sOpenOk, writeRet := 1, closeTr := [] }

/-- A platform behaviour where a 1-byte write reports 0 bytes. -/
def sWriteShort : WriteEnv :=
  { openEnv := sOpenOk, writeRet := 0, closeTr := [] }

/-- A platform behaviour where the transfer's write phase reports 0 bytes. -/
def sXferShortWrite : XferEnv :=
  { openEnv := sOpenOk, writeRet := 0, writeCloseTr := [],
    readRet := 2, readBytes := [1, 2], closeTr := [] }

/-- A platform behaviour where the transfer's write phase reports 1 byte
and its 2-byte read phase reports 0 bytes. -/
def sXferShortRead : XferEnv :=
  { openEnv := sOpenOk, writeRet := 1, writeCloseTr := [],
    readRet := 0, readBytes := [], closeTr := [] }

theorem Open_err_eq (bus : I2CBus) (addr : UInt8) (env : OpenEnv) :
    (bus.Open addr env).err =
      if env.openRes < 0 then some (excOpenFail bus.busfile env.now)
      else if env.ioctlRes < 0 then some (excNotFound addr env.now)
      else none := by
  by_cases h1 : env.openRes < 0
  · simp [I2CBus.Open, excOpenFail, h1]
  · by_cases h2 : env.ioctlRes < 0 <;>
      simp [I2CBus.Open, excOpenFail, excNotFound, h1, h2]

theorem Open_file_eq (bus : I2CBus) (addr : UInt8) (env : OpenEnv) :
    (bus.Open addr env).bus.file =
      if env.openRes < 0 then env.openRes
      else if env.ioctlRes < 0 then -1
      else env.openRes := by
  by_cases h1 : env.openRes < 0
  · simp [I2CBus.Open, h1]
  · by_cases h2 : env.ioctlRes < 0
    · have hne : ¬ env.openRes = -1 := by omega
      simp [I2CBus.Open, I2CBus.Close, h1, h2, hne]
    · simp [I2CBus.Open, h1, h2]

theorem tfrEvents_filter (fd : Int) (rs : List CloseRes) (p : Ev → Bool)
    (hp : ∀ f c, p (Ev.closeCall f c) = false) :
    (tfrEvents fd rs).filter p = [] := by
  induction rs with
  | nil => rfl
  | cons r rs ih => cases r <;> simp [tfrEvents, hp, ih]

theorem Close_filter (bus : I2CBus) (tr : List CloseRes) (p : Ev → Bool)
    (hp : ∀ f c, p (Ev.closeCall f c) = false) :
    ((bus.Close tr).2).filter p = [] := by
  unfold I2CBus.Close
  by_cases h : bus.file = -1
  · simp [h]
  · simp only [h, if_false]
    split <;> simp [hp, tfrEvents_filter _ _ _ hp]

theorem tfrEvents_mem (fd : Int) (rs : List CloseRes) :
    ∀ e ∈ tfrEvents fd rs, ∃ f c, e = Ev.closeCall f c := by
  induction rs with
  | nil => intro e he; simp [tfrEvents] at he
  | cons r rs ih =>
    intro e he
    cases r
    · simp [tfrEvents] at he; exact ⟨fd, CloseRes.ok, he⟩
    · simp [tfrEvents] at he
      rcases he with he | he
      · exact ⟨fd, CloseRes.eintr, he⟩
      · exact ih e he
    · simp [tfrEvents] at he; exact ⟨fd, CloseRes.other, he⟩

theorem Close_mem (bus : I2CBus) (tr : List CloseRes) :
    ∀ e ∈ (bus.Close tr).2, ∃ f c, e = Ev.closeCall f c := by
  intro e he
  unfold I2CBus.Close at he
  by_cases h : bus.file = -1
  · simp [h] at he
  · simp [h] at he
    rcases he with he | he
    · exact ⟨bus.file, _, he⟩
    · exact tfrEvents_mem bus.file tr.tail e he.2

theorem Close_file (bus : I2CBus) (tr : List CloseRes) :
    ((bus.Close tr).1).file = -1 ∨ ((bus.Close tr).1 = bus ∧ bus.file = -1) := by
  unfold I2CBus.Close
  by_cases h : bus.file = -1 <;> simp [h]

theorem Read_err_eq (bus : I2CBus) (buf : List UInt8) (len : Int) (addr : UInt8)
    (env : ReadEnv) :
    (bus.Read buf len addr env).err =
      if env.openEnv.openRes < 0 then some (excOpenFail bus.busfile env.openEnv.now)
      else if env.openEnv.ioctlRes < 0 then some (excNotFound addr env.openEnv.now)
      else if env.readRet ≠ len then some (excReadLen env.openEnv.now)
      else none := by
  by_cases h1 : env.openEnv.openRes < 0
  · simp [I2CBus.Read, I2CBus.Open, excOpenFail, h1]
  · by_cases h2 : env.openEnv.ioctlRes < 0
    · simp [I2CBus.Read, I2CBus.Open, excNotFound, h1, h2]
    · by_cases h3 : env.readRet = len <;>
        simp [I2CBus.Read, I2CBus.Open, excReadLen, h1, h2, h3]

theorem Read_file_eq (bus : I2CBus) (buf : List UInt8) (len : Int) (addr : UInt8)
    (env : ReadEnv) (hp : env.openEnv.openRes = -1 ∨ 0 ≤ env.openEnv.openRes) :
    ((bus.Read buf len addr env).bus).file = -1 := by
  by_cases h1 : env.openEnv.openRes < 0
  · have he : env.openEnv.openRes = -1 := by omega
    simp [I2CBus.Read, I2CBus.Open, h1, he]
  · by_cases h2 : env.openEnv.ioctlRes < 0
    · have hne : ¬ env.openEnv.openRes = -1 := by omega
      simp [I2CBus.Read, I2CBus.Open, I2CBus.Close, h1, h2, hne]
    · have hne : ¬ env.openEnv.openRes = -1 := by omega
      by_cases h3 : env.readRet = len <;>
        simp [I2CBus.Read, I2CBus.Open, I2CBus.Close, h1, h2, h3, hne]

theorem Read_out_eq (bus : I2CBus) (buf : List UInt8) (len : Int) (addr : UInt8)
    (env : ReadEnv) (h1 : 0 ≤ env.openEnv.openRes) (h2 : 0 ≤ env.openEnv.ioctlRes) :
    (bus.Read buf len addr env).out = storeBytes buf env.readBytes := by
  have h1n : ¬ env.openEnv.openRes < 0 := by omega
  have h2n : ¬ env.openEnv.ioctlRes < 0 := by omega
  by_cases h3 : env.readRet = len <;>
    simp [I2CBus.Read, I2CBus.Open, h1n, h2n, h3]

theorem Read_evs_eq (bus : I2CBus) (buf : List UInt8) (len : Int) (addr : UInt8)
    (env : ReadEnv) (h1 : 0 ≤ env.openEnv.openRes) (h2 : 0 ≤ env.openEnv.ioctlRes) :
    (bus.Read buf len addr env).evs =
      Ev.openCall bus.busfile env.openEnv.openRes ::
        Ev.ioctlCall env.openEnv.openRes addr env.openEnv.ioctlRes ::
        Ev.readCall env.openEnv.openRes len env.readRet ::
        (({ bus with file := env.openEnv.openRes } : I2CBus).Close env.closeTr).2 := by
  have h1n : ¬ env.openEnv.openRes < 0 := by omega
  have h2n : ¬ env.openEnv.ioctlRes < 0 := by omega
  by_cases h3 : env.readRet = len <;>
    simp [I2CBus.Read, I2CBus.Open, h1n, h2n, h3]

theorem Write_err_eq (bus : I2CBus) (data : List UInt8) (len : Int) (addr : UInt8)
    (env : WriteEnv) :
    (bus.Write data len addr env).err =
      if env.openEnv.openRes < 0 then some (excOpenFail bus.busfile env.openEnv.now)
      else if env.openEnv.ioctlRes < 0 then some (excNotFound addr env.openEnv.now)
      else if env.writeRet ≠ len then some (excWriteLen env.openEnv.now)
      else none := by
  by_cases h1 : env.openEnv.openRes < 0
  · simp [I2CBus.Write, I2CBus.Open, excOpenFail, h1]
  · by_cases h2 : env.openEnv.ioctlRes < 0
    · simp [I2CBus.Write, I2CBus.Open, excNotFound, h1, h2]
    · by_cases h3 : env.writeRet = len <;>
        simp [I2CBus.Write, I2CBus.Open, excWriteLen, h1, h2, h3]

theorem Write_file_eq (bus : I2CBus) (data : List UInt8) (len : Int) (addr : UInt8)
    (env : WriteEnv) (hp : env.openEnv.openRes = -1 ∨ 0 ≤ env.openEnv.openRes) :
    ((bus.Write data len addr env).bus).file = -1 := by
  by_cases h1 : env.openEnv.openRes < 0
  · have he : env.openEnv.openRes = -1 := by omega
    simp [I2CBus.Write, I2CBus.Open, h1, he]
  · have hne : ¬ env.openEnv.openRes = -1 := by omega
    by_cases h2 : env.openEnv.ioctlRes < 0
    · simp [I2CBus.Write, I2CBus.Open, I2CBus.Close, h1, h2, hne]
    · by_cases h3 : env.writeRet = len <;>
        simp [I2CBus.Write, I2CBus.Open, I2CBus.Close, h1, h2, h3, hne]

theorem Write_evs_eq (bus : I2CBus) (data : List UInt8) (len : Int) (addr : UInt8)
    (env : WriteEnv) (h1 : 0 ≤ env.openEnv.openRes) (h2 : 0 ≤ env.openEnv.ioctlRes) :
    (bus.Write data len addr env).evs =
      Ev.openCall bus.busfile env.openEnv.openRes ::
        Ev.ioctlCall env.openEnv.openRes addr env.openEnv.ioctlRes ::
        Ev.writeCall env.openEnv.openRes data len env.writeRet ::
        (({ bus with file := env.openEnv.openRes } : I2CBus).Close env.closeTr).2 := by
  have h1n : ¬ env.openEnv.openRes < 0 := by omega
  have h2n : ¬ env.openEnv.ioctlRes < 0 := by omega
  by_cases h3 : env.writeRet = len <;>
    simp [I2CBus.Write, I2CBus.Open, h1n, h2n, h3]

theorem WriteStr_err_eq (bus : I2CBus) (dat : List UInt8) (addr : UInt8)
    (env : WriteEnv) :
    (bus.WriteStr dat addr env).err =
      if env.openEnv.openRes < 0 then some (excOpenFail bus.busfile env.openEnv.now)
      else if env.openEnv.ioctlRes < 0 then some (excNotFound addr env.openEnv.now)
      else if env.writeRet ≠ (dat.length : Int) then some (excWriteStrLen env.openEnv.now)
      else none := by
  by_cases h1 : env.openEnv.openRes < 0
  · simp [I2CBus.WriteStr, I2CBus.Open, excOpenFail, h1]
  · by_cases h2 : env.openEnv.ioctlRes < 0
    · simp [I2CBus.WriteStr, I2CBus.Open, excNotFound, h1, h2]
    · by_cases h3 : env.writeRet = (dat.length : Int) <;>
        simp [I2CBus.WriteStr, I2CBus.Open, excWriteStrLen, h1, h2, h3]

theorem WriteStr_file_eq (bus : I2CBus) (dat : List UInt8) (addr : UInt8)
    (env : WriteEnv) (hp : env.openEnv.openRes = -1 ∨ 0 ≤ env.openEnv.openRes) :
    ((bus.WriteStr dat addr env).bus).file = -1 := by
  by_cases h1 : env.openEnv.openRes < 0
  · have he : env.openEnv.openRes = -1 := by omega
    simp [I2CBus.WriteStr, I2CBus.Open, h1, he]
  · have hne : ¬ env.openEnv.openRes = -1 := by omega
    by_cases h2 : env.openEnv.ioctlRes < 0
    · simp [I2CBus.WriteStr, I2CBus.Open, I2CBus.Close, h1, h2, hne]
    · by_cases h3 : env.writeRet = (dat.length : Int) <;>
        simp [I2CBus.WriteStr, I2CBus.Open, I2CBus.Close, h1, h2, h3, hne]

theorem WriteStr_evs_eq (bus : I2CBus) (dat : List UInt8) (addr : UInt8)
    (env : WriteEnv) (h1 : 0 ≤ env.openEnv.openRes) (h2 : 0 ≤ env.openEnv.ioctlRes) :
    (bus.WriteStr dat addr env).evs =
      Ev.openCall bus.busfile env.openEnv.openRes ::
        Ev.ioctlCall env.openEnv.openRes addr env.openEnv.ioctlRes ::
        Ev.writeCall env.openEnv.openRes dat (dat.length : Int) env.writeRet ::
        (({ bus with file := env.openEnv.openRes } : I2CBus).Close env.closeTr).2 := by
  have h1n : ¬ env.openEnv.openRes < 0 := by omega
  have h2n : ¬ env.openEnv.ioctlRes < 0 := by omega
  by_cases h3 : env.writeRet = (dat.length : Int) <;>
    simp [I2CBus.WriteStr, I2CBus.Open, h1n, h2n, h3]

theorem Xfer_err_eq (bus : I2CBus) (odat : List UInt8) (olen : Int)
    (ibuf : List UInt8) (ilen : Int) (i2caddr : UInt8) (env : XferEnv) :
    (bus.Xfer odat olen ibuf ilen i2caddr env).err =
      if env.openEnv.openRes < 0 then some (excOpenFail bus.busfile env.openEnv.now)
      else if env.openEnv.ioctlRes < 0 then some (excNotFound i2caddr env.openEnv.now)
      else if env.writeRet ≠ olen then some (excXferWriteLen env.openEnv.now)
      else if env.readRet ≠ ilen then some (excXferReadLen env.openEnv.now)
      else none := by
  by_cases h1 : env.openEnv.openRes < 0
  · simp [I2CBus.Xfer, I2CBus.Open, excOpenFail, h1]
  · by_cases h2 : env.openEnv.ioctlRes < 0
    · simp [I2CBus.Xfer, I2CBus.Open, excNotFound, h1, h2]
    · by_cases h3 : env.writeRet = olen
      · by_cases h4 : env.readRet = ilen <;>
          simp [I2CBus.Xfer, I2CBus.Open, excXferReadLen, h1, h2, h3, h4]
      · simp [I2CBus.Xfer, I2CBus.Open, excXferWriteLen, h1, h2, h3]

theorem Xfer_file_eq (bus : I2CBus) (odat : List UInt8) (olen : Int)
    (ibuf : List UInt8) (ilen : Int) (i2caddr : UInt8) (env : XferEnv)
    (hp : env.openEnv.openRes = -1 ∨ 0 ≤ env.openEnv.openRes) :
    ((bus.Xfer odat olen ibuf ilen i2caddr env).bus).file = -1 := by
  by_cases h1 : env.openEnv.openRes < 0
  · have he : env.openEnv.openRes = -1 := by omega
    simp [I2CBus.Xfer, I2CBus.Open, h1, he]
  · have hne : ¬ env.openEnv.openRes = -1 := by omega
    by_cases h2 : env.openEnv.ioctlRes < 0
    · simp [I2CBus.Xfer, I2CBus.Open, I2CBus.Close, h1, h2, hne]
    · by_cases h3 : env.writeRet = olen
      · by_cases h4 : env.readRet = ilen <;>
          simp [I2CBus.Xfer, I2CBus.Open, I2CBus.Close, h1, h2, h3, h4, hne]
      · simp [I2CBus.Xfer, I2CBus.Open, I2CBus.Close, h1, h2, h3, hne]

theorem Xfer_evs_shortWrite (bus : I2CBus) (odat : List UInt8) (olen : Int)
    (ibuf : List UInt8) (ilen : Int) (i2caddr : UInt8) (env : XferEnv)
    (h1 : 0 ≤ env.openEnv.openRes) (h2 : 0 ≤ env.openEnv.ioctlRes)
    (h3 : env.writeRet ≠ olen) :
    (bus.Xfer odat olen ibuf ilen i2caddr env).evs =
      Ev.openCall bus.busfile env.openEnv.openRes ::
        Ev.ioctlCall env.openEnv.openRes i2caddr env.openEnv.ioctlRes ::
        Ev.writeCall env.openEnv.openRes odat olen env.writeRet ::
        (({ bus with file := env.openEnv.openRes } : I2CBus).Close env.writeCloseTr).2 := by
  have h1n : ¬ env.openEnv.openRes < 0 := by omega
  have h2n : ¬ env.openEnv.ioctlRes < 0 := by omega
  simp [I2CBus.Xfer, I2CBus.Open, h1n, h2n, h3]

theorem Xfer_evs_afterWrite (bus : I2CBus) (odat : List UInt8) (olen : Int)
    (ibuf : List UInt8) (ilen : Int) (i2caddr : UInt8) (env : XferEnv)
    (h1 : 0 ≤ env.openEnv.openRes) (h2 : 0 ≤ env.openEnv.ioctlRes)
    (h3 : env.writeRet = olen) :
    (bus.Xfer odat olen ibuf ilen i2caddr env).evs =
      Ev.openCall bus.busfile env.openEnv.openRes ::
        Ev.ioctlCall env.openEnv.openRes i2caddr env.openEnv.ioctlRes ::
        Ev.writeCall env.openEnv.openRes odat olen env.writeRet ::
        Ev.readCall env.openEnv.openRes ilen env.readRet ::
        (({ bus with file := env.openEnv.openRes } : I2CBus).Close env.closeTr).2 := by
  have h1n : ¬ env.openEnv.openRes < 0 := by omega
  have h2n : ¬ env.openEnv.ioctlRes < 0 := by omega
  by_cases h4 : env.readRet = ilen <;>
    simp [I2CBus.Xfer, I2CBus.Open, h1n, h2n, h3, h4]

theorem ilv_nil_left : ∀ {ys : List LAct} {zs : List (Bool × LAct)},
    Ilv [] ys zs → zs = tagAll true ys := by
  intro ys
  induction ys with
  | nil => intro zs h; cases h; rfl
  | cons y ys ih =>
    intro zs h
    cases h with
    | right h => simp [tagAll] at ih ⊢; exact ih h

theorem ilv_nil_right : ∀ {xs : List LAct} {zs : List (Bool × LAct)},
    Ilv xs [] zs → zs = tagAll false xs := by
  intro xs
  induction xs with
  | nil => intro zs h; cases h; rfl
  | cons x xs ih =>
    intro zs h
    cases h with
    | left h => simp [tagAll] at ih ⊢; exact ih h

theorem ilv_append : ∀ (xs ys : List LAct),
    Ilv xs ys (tagAll false xs ++ tagAll true ys)
  | [], [] => Ilv.nil
  | [], y :: ys => Ilv.right (ilv_append [] ys)
  | x :: xs, ys => Ilv.left (ilv_append xs ys)

theorem run_left : ∀ (body : List Ev) {ys : List LAct} {zs : List (Bool × LAct)},
    Ilv (body.map LAct.act ++ [LAct.unlock]) (LAct.lock :: ys) zs →
    mutexOk (some false) zs = true →
    zs = tagAll false (body.map LAct.act) ++
      (false, LAct.unlock) :: tagAll true (LAct.lock :: ys) := by
  intro body
  induction body with
  | nil =>
    intro ys zs h hv
    cases h with
    | left h => simp [tagAll, ilv_nil_left h]
    | right h => simp [mutexOk] at hv
  | cons e body ih =>
    intro ys zs h hv
    simp only [List.map_cons, List.cons_append] at h
    cases h with
    | left h =>
      simp only [mutexOk] at hv
      simp [tagAll, ih h hv]
    | right h => simp [mutexOk] at hv

theorem run_right : ∀ (body : List Ev) {xs : List LAct} {zs : List (Bool × LAct)},
    Ilv (LAct.lock :: xs) (body.map LAct.act ++ [LAct.unlock]) zs →
    mutexOk (some true) zs = true →
    zs = tagAll true (body.map LAct.act) ++
      (true, LAct.unlock) :: tagAll false (LAct.lock :: xs) := by
  intro body
  induction body with
  | nil =>
    intro xs zs h hv
    cases h with
    | left h => simp [mutexOk] at hv
    | right h => simp [tagAll, ilv_nil_right h]
  | cons e body ih =>
    intro xs zs h hv
    simp only [List.map_cons, List.cons_append] at h
    cases h with
    | left h => simp [mutexOk] at hv
    | right h =>
      simp only [mutexOk] at hv
      simp [tagAll, ih h hv]

theorem mutex_serializes (a b : List Ev) (zs : List (Bool × LAct))
    (h : Ilv (opSession a) (opSession b) zs) (hv : mutexOk none zs = true) :
    zs = tagAll false (opSession a) ++ tagAll true (opSession b) ∨
    zs = tagAll true (opSession b) ++ tagAll false (opSession a) := by
  simp only [opSession] at h
  cases h with
  | left h =>
    left
    simp only [mutexOk] at hv
    simp [opSession, tagAll, run_left a h hv]
  | right h =>
    right
    simp only [mutexOk] at hv
    simp [opSession, tagAll, run_right b h hv]

theorem tfrEvents_length (fd : Int) (k : Nat) (r : CloseRes) (rest : List CloseRes)
    (hr : r ≠ CloseRes.eintr) :
    (tfrEvents fd (List.replicate k CloseRes.eintr ++ r :: rest)).length = k + 1 := by
  induction k with
  | zero =>
    cases r
    · simp [tfrEvents]
    · exact absurd rfl hr
    · simp [tfrEvents]
  | succ k ih => simp [List.replicate_succ, tfrEvents, ih]

/-- C1: For every `Read(data, len, addr)` or `Write(data, len, addr)` call
that returns without throwing, the count reported by the platform read/write
call equals the requested `len`; and whenever the platform call is reached
(the open and the address binding succeeded) and reports a count different
from `len`, the call throws a generic `I2CException` (the Bus Unavailable
variant) instead of returning successfully. -/
theorem c1_read_write_full_length (bus : I2CBus) (buf data : List UInt8)
    (len : Int) (addr : UInt8) (envR : ReadEnv) (envW : WriteEnv) :
    ((bus.Read buf len addr envR).err = none → envR.readRet = len) ∧
    (0 ≤ envR.openEnv.openRes → 0 ≤ envR.openEnv.ioctlRes → envR.readRet ≠ len →
      ∃ e, (bus.Read buf len addr envR).err = some e ∧ e.kind = ExcKind.generic) ∧
    ((bus.Write data len addr envW).err = none → envW.writeRet = len) ∧
    (0 ≤ envW.openEnv.openRes → 0 ≤ envW.openEnv.ioctlRes → envW.writeRet ≠ len →
      ∃ e, (bus.Write data len addr envW).err = some e ∧ e.kind = ExcKind.generic) := by
  refine ⟨?_, ?_, ?_, ?_⟩
  · intro h
    rw [Read_err_eq] at h
    by_cases h1 : envR.openEnv.openRes < 0
    · simp [h1] at h
    · by_cases h2 : envR.openEnv.ioctlRes < 0
      · simp [h1, h2] at h
      · by_cases h3 : envR.readRet = len
        · exact h3
        · simp [h1, h2, h3] at h
  · intro h1 h2 h3
    have h1n : ¬ envR.openEnv.openRes < 0 := by omega
    have h2n : ¬ envR.openEnv.ioctlRes < 0 := by omega
    refine ⟨excReadLen envR.openEnv.now, ?_, rfl⟩
    rw [Read_err_eq]
    simp [h1n, h2n, h3]
  · intro h
    rw [Write_err_eq] at h
    by_cases h1 : envW.openEnv.openRes < 0
    · simp [h1] at h
    · by_cases h2 : envW.openEnv.ioctlRes < 0
      · simp [h1, h2] at h
      · by_cases h3 : envW.writeRet = len
        · exact h3
        · simp [h1, h2, h3] at h
  · intro h1 h2 h3
    have h1n : ¬ envW.openEnv.openRes < 0 := by omega
    have h2n : ¬ envW.openEnv.ioctlRes < 0 := by omega
    refine ⟨excWriteLen envW.openEnv.now, ?_, rfl⟩
    rw [Write_err_eq]
    simp [h1n, h2n, h3]

/-- Witness for C1: a successful 4-byte read forces the reported count 4, a
successful 1-byte write forces 1; a read reporting 2 of 4 bytes and a write
reporting 0 of 1 byte each throw a generic exception. -/
theorem c1_witness :
    sReadOk.readRet = 4 ∧
    (∃ e, (sBus.Read [0, 0, 0, 0] 4 0x50 sReadShort).err = some e ∧
      e.kind = ExcKind.generic) ∧
    sWriteOk.writeRet = 1 ∧
    (∃ e, (sBus.Write [0x10] 1 0x50 sWriteShort).err = some e ∧
      e.kind = ExcKind.generic) :=
  ⟨(c1_read_write_full_length sBus [0, 0, 0, 0] [0x10] 4 0x50 sReadOk sWriteOk).1
      (by decide),
   (c1_read_write_full_length sBus [0, 0, 0, 0] [0x10] 4 0x50 sReadShort sWriteOk).2.1
      (by decide) (by decide) (by decide),
   (c1_read_write_full_length sBus [0, 0, 0, 0] [0x10] 1 0x50 sReadShort sWriteOk).2.2.1
      (by decide),
   (c1_read_write_full_length sBus [0, 0, 0, 0] [0x10] 1 0x50 sReadShort sWriteShort).2.2.2
      (by decide) (by decide) (by decide)⟩

/-- C2: A failed address binding (the `ioctl` step, reached only after a
successful `::open`) makes `Open` — and with it every public operation,
`Read`, `Write` (both overloads), `Xfer` and `XferAddr` — throw the
`I2CNotFoundException` variant and never the generic one, with the handle
opened by that `Open` call closed (descriptor back to -1) before the
exception is thrown; conversely, in `Open` and in every public operation,
an exception of the `I2CNotFoundException` variant can only arise from that
binding-failure path (open succeeded, ioctl failed) and is exactly the
exception `Open` builds there. -/
theorem c2_not_found_classification (bus : I2CBus) (addr : UInt8)
    (env : OpenEnv) (buf data dat odat ibuf ibuf2 : List UInt8)
    (len olen ilen ilen2 : Int) (b : UInt8) (envR : ReadEnv)
    (envW envS : WriteEnv) (envX envX2 : XferEnv) (e : I2CError) :
    (0 ≤ env.openRes → env.ioctlRes < 0 →
      (bus.Open addr env).err = some (excNotFound addr env.now) ∧
      (excNotFound addr env.now).kind = ExcKind.notFound ∧
      (bus.Open addr env).bus.file = -1) ∧
    (0 ≤ envR.openEnv.openRes → envR.openEnv.ioctlRes < 0 →
      (bus.Read buf len addr envR).err =
        some (excNotFound addr envR.openEnv.now) ∧
      (excNotFound addr envR.openEnv.now).kind = ExcKind.notFound ∧
      ¬ (excNotFound addr envR.openEnv.now).kind = ExcKind.generic) ∧
    (0 ≤ envW.openEnv.openRes → envW.openEnv.ioctlRes < 0 →
      (bus.Write data len addr envW).err =
        some (excNotFound addr envW.openEnv.now) ∧
      (excNotFound addr envW.openEnv.now).kind = ExcKind.notFound ∧
      ¬ (excNotFound addr envW.openEnv.now).kind = ExcKind.generic) ∧
    (0 ≤ envS.openEnv.openRes → envS.openEnv.ioctlRes < 0 →
      (bus.WriteStr dat addr envS).err =
        some (excNotFound addr envS.openEnv.now) ∧
      (excNotFound addr envS.openEnv.now).kind = ExcKind.notFound ∧
      ¬ (excNotFound addr envS.openEnv.now).kind = ExcKind.generic) ∧
    (0 ≤ envX.openEnv.openRes → envX.openEnv.ioctlRes < 0 →
      (bus.Xfer odat olen ibuf ilen addr envX).err =
        some (excNotFound addr envX.openEnv.now) ∧
      (excNotFound addr envX.openEnv.now).kind = ExcKind.notFound ∧
      ¬ (excNotFound addr envX.openEnv.now).kind = ExcKind.generic) ∧
    (0 ≤ envX2.openEnv.openRes → envX2.openEnv.ioctlRes < 0 →
      (bus.XferAddr b ibuf2 ilen2 addr envX2).err =
        some (excNotFound addr envX2.openEnv.now) ∧
      (excNotFound addr envX2.openEnv.now).kind = ExcKind.notFound ∧
      ¬ (excNotFound addr envX2.openEnv.now).kind = ExcKind.generic) ∧
    ((bus.Open addr env).err = some e → e.kind = ExcKind.notFound →
      0 ≤ env.openRes ∧ env.ioctlRes < 0 ∧ e = excNotFound addr env.now) ∧
    ((bus.Read buf len addr envR).err = some e → e.kind = ExcKind.notFound →
      0 ≤ envR.openEnv.openRes ∧ envR.openEnv.ioctlRes < 0 ∧
      e = excNotFound addr envR.openEnv.now) ∧
    ((bus.Write data len addr envW).err = some e → e.kind = ExcKind.notFound →
      0 ≤ envW.openEnv.openRes ∧ envW.openEnv.ioctlRes < 0 ∧
      e = excNotFound addr envW.openEnv.now) ∧
    ((bus.WriteStr dat addr envS).err = some e → e.kind = ExcKind.notFound →
      0 ≤ envS.openEnv.openRes ∧ envS.openEnv.ioctlRes < 0 ∧
      e = excNotFound addr envS.openEnv.now) ∧
    ((bus.Xfer odat olen ibuf ilen addr envX).err = some e →
      e.kind = ExcKind.notFound →
      0 ≤ envX.openEnv.openRes ∧ envX.openEnv.ioctlRes < 0 ∧
      e = excNotFound addr envX.openEnv.now) := by
  refine ⟨?_, ?_, ?_, ?_, ?_, ?_, ?_, ?_, ?_, ?_, ?_⟩
  · intro h1 h2
    have h1n : ¬ env.openRes < 0 := by omega
    refine ⟨?_, rfl, ?_⟩
    · rw [Open_err_eq]; simp [h1n, h2]
    · rw [Open_file_eq]; simp [h1n, h2]
  · intro h1 h2
    have h1n : ¬ envR.openEnv.openRes < 0 := by omega
    refine ⟨?_, rfl, fun h => ExcKind.noConfusion h⟩
    rw [Read_err_eq]; simp [h1n, h2]
  · intro h1 h2
    have h1n : ¬ envW.openEnv.openRes < 0 := by omega
    refine ⟨?_, rfl, fun h => ExcKind.noConfusion h⟩
    rw [Write_err_eq]; simp [h1n, h2]
  · intro h1 h2
    have h1n : ¬ envS.openEnv.openRes < 0 := by omega
    refine ⟨?_, rfl, fun h => ExcKind.noConfusion h⟩
    rw [WriteStr_err_eq]; simp [h1n, h2]
  · intro h1 h2
    have h1n : ¬ envX.openEnv.openRes < 0 := by omega
    refine ⟨?_, rfl, fun h => ExcKind.noConfusion h⟩
    rw [Xfer_err_eq]; simp [h1n, h2]
  · intro h1 h2
    have h1n : ¬ envX2.openEnv.openRes < 0 := by omega
    refine ⟨?_, rfl, fun h => ExcKind.noConfusion h⟩
    show (bus.Xfer [b] 1 ibuf2 ilen2 addr envX2).err = _
    rw [Xfer_err_eq]; simp [h1n, h2]
  · intro he hk
    rw [Open_err_eq] at he
    by_cases h1 : env.openRes < 0
    · simp [h1] at he
      rw [← he] at hk
      simp [excOpenFail, I2CException.make] at hk
    · by_cases h2 : env.ioctlRes < 0
      · simp [h1, h2] at he
        exact ⟨by omega, h2, he.symm⟩
      · simp [h1, h2] at he
  · intro he hk
    rw [Read_err_eq] at he
    by_cases h1 : envR.openEnv.openRes < 0
    · simp [h1] at he
      rw [← he] at hk
      simp [excOpenFail, I2CException.make] at hk
    · by_cases h2 : envR.openEnv.ioctlRes < 0
      · simp [h1, h2] at he
        exact ⟨by omega, h2, he.symm⟩
      · by_cases h3 : envR.readRet = len
        · simp [h1, h2, h3] at he
        · simp [h1, h2, h3] at he
          rw [← he] at hk
          simp [excReadLen, I2CException.make] at hk
  · intro he hk
    rw [Write_err_eq] at he
    by_cases h1 : envW.openEnv.openRes < 0
    · simp [h1] at he
      rw [← he] at hk
      simp [excOpenFail, I2CException.make] at hk
    · by_cases h2 : envW.openEnv.ioctlRes < 0
      · simp [h1, h2] at he
        exact ⟨by omega, h2, he.symm⟩
      · by_cases h3 : envW.writeRet = len
        · simp [h1, h2, h3] at he
        · simp [h1, h2, h3] at he
          rw [← he] at hk
          simp [excWriteLen, I2CException.make] at hk
  · intro he hk
    rw [WriteStr_err_eq] at he
    by_cases h1 : envS.openEnv.openRes < 0
    · simp [h1] at he
      rw [← he] at hk
      simp [excOpenFail, I2CException.make] at hk
    · by_cases h2 : envS.openEnv.ioctlRes < 0
      · simp [h1, h2] at he
        exact ⟨by omega, h2, he.symm⟩
      · by_cases h3 : envS.writeRet = (dat.length : Int)
        · simp [h1, h2, h3] at he
        · simp [h1, h2, h3] at he
          rw [← he] at hk
          simp [excWriteStrLen, I2CException.make] at hk
  · intro he hk
    rw [Xfer_err_eq] at he
    by_cases h1 : envX.openEnv.openRes < 0
    · simp [h1] at he
      rw [← he] at hk
      simp [excOpenFail, I2CException.make] at hk
    · by_cases h2 : envX.openEnv.ioctlRes < 0
      · simp [h1, h2] at he
        exact ⟨by omega, h2, he.symm⟩
      · by_cases h3 : envX.writeRet = olen
        · by_cases h4 : envX.readRet = ilen
          · simp [h1, h2, h3, h4] at he
          · simp [h1, h2, h3, h4] at he
            rw [← he] at hk
            simp [excXferReadLen, I2CException.make] at hk
        · simp [h1, h2, h3] at he
          rw [← he] at hk
          simp [excXferWriteLen, I2CException.make] at hk

/-- Witness for C2: against a device at address 0x77 that does not
acknowledge, `Open` throws the not-found variant and leaves the descriptor
closed, and a public `Read` against the same device surfaces that same
not-found (never generic) exception. -/
theorem c2_witness :
    ((sBus.Open 0x77 sOpenNotFound).err = some (excNotFound 0x77 1000) ∧
      (excNotFound 0x77 1000).kind = ExcKind.notFound ∧
      (sBus.Open 0x77 sOpenNotFound).bus.file = -1) ∧
    ((sBus.Read [0, 0, 0, 0] 4 0x77 sReadNotFound).err =
        some (excNotFound 0x77 1000) ∧
      (excNotFound 0x77 1000).kind = ExcKind.notFound ∧
      ¬ (excNotFound 0x77 1000).kind = ExcKind.generic) :=
  ⟨(c2_not_found_classification sBus 0x77 sOpenNotFound [] [] [] [] [] [] 0 0 0 0
      0 sReadNotFound sWriteOk sWriteOk sXferShortWrite sXferShortWrite
      (excNotFound 0x77 1000)).1 (by decide) (by decide),
   (c2_not_found_classification sBus 0x77 sOpenNotFound [0, 0, 0, 0] [] [] [] []
      [] 4 0 0 0 0 sReadNotFound sWriteOk sWriteOk sXferShortWrite
      sXferShortWrite (excNotFound 0x77 1000)).2.1 (by decide) (by decide)⟩

/-- C3: `Close` is idempotent — called with the descriptor already at the
"not open" sentinel -1 it leaves the state unchanged and performs no
platform `::close` call — and after every `Read`, `Write` (either overload),
`Xfer` or `XferAddr` call, successful or throwing, the descriptor is back at
-1.  The hypothesis on each environment is the POSIX contract that a failed
`::open` reports exactly -1. -/
theorem c3_close_idempotent_and_final (bus : I2CBus) (tr : List CloseRes)
    (buf data dat odat ibuf ibuf2 : List UInt8) (len olen ilen ilen2 : Int)
    (addr : UInt8) (b : UInt8) (envR : ReadEnv) (envW envS : WriteEnv)
    (envX envX2 : XferEnv) :
    (bus.file = -1 → bus.Close tr = (bus, [])) ∧
    (envR.openEnv.openRes = -1 ∨ 0 ≤ envR.openEnv.openRes →
      ((bus.Read buf len addr envR).bus).file = -1) ∧
    (envW.openEnv.openRes = -1 ∨ 0 ≤ envW.openEnv.openRes →
      ((bus.Write data len addr envW).bus).file = -1) ∧
    (envS.openEnv.openRes = -1 ∨ 0 ≤ envS.openEnv.openRes →
      ((bus.WriteStr dat addr envS).bus).file = -1) ∧
    (envX.openEnv.openRes = -1 ∨ 0 ≤ envX.openEnv.openRes →
      ((bus.Xfer odat olen ibuf ilen addr envX).bus).file = -1) ∧
    (envX2.openEnv.openRes = -1 ∨ 0 ≤ envX2.openEnv.openRes →
      ((bus.XferAddr b ibuf2 ilen2 addr envX2).bus).file = -1) := by
  refine ⟨?_, Read_file_eq bus buf len addr envR,
    Write_file_eq bus data len addr envW, WriteStr_file_eq bus dat addr envS,
    Xfer_file_eq bus odat olen ibuf ilen addr envX,
    Xfer_file_eq bus [b] 1 ibuf2 ilen2 addr envX2⟩
  intro h
  simp [I2CBus.Close, h]

/-- Witness for C3: closing an already closed bus is a no-op with no
platform call, and both a failing read and a short-circuited transfer leave
the descriptor at -1. -/
theorem c3_witness :
    (sBus.Close [] = (sBus, [])) ∧
    ((sBus.Read [0, 0, 0, 0] 4 0x50 sReadShort).bus).file = -1 ∧
    ((sBus.Xfer [0x00] 1 [0, 0] 2 0x50 sXferShortWrite).bus).file = -1 :=
  ⟨(c3_close_idempotent_and_final sBus [] [] [] [] [] [] [] 0 0 0 0 0x50 0
      sReadShort sWriteOk sWriteOk sXferShortWrite sXferShortWrite).1 (by decide),
   (c3_close_idempotent_and_final sBus [] [0, 0, 0, 0] [] [] [] [] [] 4 0 0 0 0x50 0
      sReadShort sWriteOk sWriteOk sXferShortWrite sXferShortWrite).2.1
     (Or.inr (by decide)),
   (c3_close_idempotent_and_final sBus [] [] [] [] [0x00] [0, 0] [] 1 1 2 0 0x50 0
      sReadShort sWriteOk sWriteOk sXferShortWrite sXferShortWrite).2.2.2.2.1
     (Or.inr (by decide))⟩

/-- C4: In `Xfer(odat, olen, idat, ilen, i2caddr)` the read phase is
attempted exactly when the write phase reported `olen` bytes: on a write
count mismatch the operation throws the generic write-length exception, no
platform `::read` call appears in its trace, and the descriptor is closed
(-1) before the throw; when the write count matches, exactly one `::read`
is performed, and a read count mismatch makes the operation close the
descriptor and then throw the generic read-length exception. -/
theorem c4_xfer_short_circuit (bus : I2CBus) (odat ibuf : List UInt8)
    (olen ilen : Int) (i2caddr : UInt8) (env : XferEnv)
    (h1 : 0 ≤ env.openEnv.openRes) (h2 : 0 ≤ env.openEnv.ioctlRes) :
    (env.writeRet ≠ olen →
      (bus.Xfer odat olen ibuf ilen i2caddr env).err =
        some (excXferWriteLen env.openEnv.now) ∧
      (excXferWriteLen env.openEnv.now).kind = ExcKind.generic ∧
      ((bus.Xfer odat olen ibuf ilen i2caddr env).evs).filter Ev.isReadCall = [] ∧
      ((bus.Xfer odat olen ibuf ilen i2caddr env).bus).file = -1) ∧
    (env.writeRet = olen →
      ((bus.Xfer odat olen ibuf ilen i2caddr env).evs).filter Ev.isReadCall =
        [Ev.readCall env.openEnv.openRes ilen env.readRet] ∧
      (env.readRet ≠ ilen →
        (bus.Xfer odat olen ibuf ilen i2caddr env).err =
          some (excXferReadLen env.openEnv.now) ∧
        ((bus.Xfer odat olen ibuf ilen i2caddr env).bus).file = -1)) := by
  have h1n : ¬ env.openEnv.openRes < 0 := by omega
  have h2n : ¬ env.openEnv.ioctlRes < 0 := by omega
  constructor
  · intro h3
    refine ⟨?_, rfl, ?_, ?_⟩
    · rw [Xfer_err_eq]; simp [h1n, h2n, h3]
    · rw [Xfer_evs_shortWrite bus odat olen ibuf ilen i2caddr env h1 h2 h3]
      simp [Ev.isReadCall]
      intro a ha
      obtain ⟨f, c, rfl⟩ := Close_mem _ _ a ha
      rfl
    · exact Xfer_file_eq bus odat olen ibuf ilen i2caddr env (Or.inr h1)
  · intro h3
    constructor
    · rw [Xfer_evs_afterWrite bus odat olen ibuf ilen i2caddr env h1 h2 h3]
      simp [Ev.isReadCall]
      intro a ha
      obtain ⟨f, c, rfl⟩ := Close_mem _ _ a ha
      rfl
    · intro h4
      refine ⟨?_, ?_⟩
      · rw [Xfer_err_eq]; simp [h1n, h2n, h3, h4]
      · exact Xfer_file_eq bus odat olen ibuf ilen i2caddr env (Or.inr h1)

/-- Witness for C4, the spec's Scenario E: `Transfer` of one byte whose
write reports 0 bytes throws the generic write-length exception, performs
no read, and still closes the descriptor. -/
theorem c4_witness :
    (sBus.Xfer [0x00] 1 [0, 0] 2 0x50 sXferShortWrite).err =
      some (excXferWriteLen 1000) ∧
    (excXferWriteLen 1000).kind = ExcKind.generic ∧
    ((sBus.Xfer [0x00] 1 [0, 0] 2 0x50 sXferShortWrite).evs).filter Ev.isReadCall = [] ∧
    ((sBus.Xfer [0x00] 1 [0, 0] 2 0x50 sXferShortWrite).bus).file = -1 :=
  (c4_xfer_short_circuit sBus [0x00] [0, 0] 1 2 0x50 sXferShortWrite
      (by decide) (by decide)).1 (by decide)

/-- C5, evaluated at a failing input: the code contradicts the claim (and
its own constructor documentation).  Every throw site passes the operation
name as the constructor's `msg` argument and the descriptive text as its
`proc` argument, so on a read whose platform count (2) differs from the
requested length (4) the thrown exception has `who()` returning the
descriptive message "Read length error." — not the operation name — while
`why()` and `what()` return the operation name "I2CBus::Read(data, len,
addr)".  Only the timestamp behaves as claimed: `when()` returns the
capture time. -/
theorem c5_accessor_swap :
    ∃ e, (sBus.Read [0, 0, 0, 0] 4 0x50 sReadShort).err = some e ∧
      e.exc.who = "Read length error." ∧
      e.exc.why = "I2CBus::Read(data, len, addr)" ∧
      e.exc.what = "I2CBus::Read(data, len, addr)" ∧
      e.exc.when = 1000 ∧
      ¬ e.exc.who = "I2CBus::Read(data, len, addr)" :=
  ⟨excReadLen 1000, by decide, by decide, by decide, by decide, by decide,
    by decide⟩

/-- C6 is false as stated: with the descriptor open (3) and a platform on
which the first `::close` and the first retry are both interrupted with
EINTR while the second retry succeeds, `Close` performs three platform
`::close` calls — the `TEMP_FAILURE_RETRY` do-while loop retried twice,
not "exactly once". -/
theorem c6_counterexample :
    ((({ busfile := "/dev/i2c-1", file := 3 } : I2CBus).Close
        [CloseRes.eintr, CloseRes.eintr, CloseRes.ok]).2).length = 3 ∧
    ¬ ((({ busfile := "/dev/i2c-1", file := 3 } : I2CBus).Close
        [CloseRes.eintr, CloseRes.eintr, CloseRes.ok]).2).length ≤ 2 := by
  decide

/-- C6 amended: when the release in `Close` is interrupted by EINTR, `Close`
retries the platform `::close`, repeating the retry as long as it is again
interrupted by EINTR (so exactly once only when the first retry is not
interrupted): with `k` EINTR-interrupted retries followed by a
non-interrupted one it performs `k + 2` platform close calls in total.
Close-time errors are never propagated to the caller — the outcome of
`Read`/`Write` is independent of the close-call outcomes — and no other
operation is retried: one `Read` performs exactly one platform `::read`
call and one `Write` exactly one platform `::write` call. -/
theorem c6_close_retry_amended (bus : I2CBus) (k : Nat) (r : CloseRes)
    (rest t1 t2 : List CloseRes) (buf data : List UInt8) (len : Int)
    (addr : UInt8) (envR : ReadEnv) (envW : WriteEnv) :
    (bus.file ≠ -1 → r ≠ CloseRes.eintr →
      ((bus.Close (CloseRes.eintr ::
          (List.replicate k CloseRes.eintr ++ r :: rest))).2).length = k + 2) ∧
    ((bus.Read buf len addr { envR with closeTr := t1 }).err =
      (bus.Read buf len addr { envR with closeTr := t2 }).err) ∧
    ((bus.Write data len addr { envW with closeTr := t1 }).err =
      (bus.Write data len addr { envW with closeTr := t2 }).err) ∧
    (0 ≤ envR.openEnv.openRes → 0 ≤ envR.openEnv.ioctlRes →
      (((bus.Read buf len addr envR).evs).filter Ev.isReadCall).length = 1) ∧
    (0 ≤ envW.openEnv.openRes → 0 ≤ envW.openEnv.ioctlRes →
      (((bus.Write data len addr envW).evs).filter Ev.isWriteCall).length = 1) := by
  refine ⟨?_, ?_, ?_, ?_, ?_⟩
  · intro h hr
    simp [I2CBus.Close, h, tfrEvents_length bus.file k r rest hr]
  · rw [Read_err_eq, Read_err_eq]
  · rw [Write_err_eq, Write_err_eq]
  · intro h1 h2
    rw [Read_evs_eq bus buf len addr envR h1 h2]
    simp [Ev.isReadCall]
    intro a ha
    obtain ⟨f, c, rfl⟩ := Close_mem _ _ a ha
    rfl
  · intro h1 h2
    rw [Write_evs_eq bus data len addr envW h1 h2]
    simp [Ev.isWriteCall]
    intro a ha
    obtain ⟨f, c, rfl⟩ := Close_mem _ _ a ha
    rfl

/-- Witness for C6 (amended): with one EINTR-interrupted retry followed by
a successful one, `Close` makes three platform close calls, and a failing
read's outcome is unaffected by close outcomes while performing exactly one
platform read. -/
theorem c6_witness :
    ((({ busfile := "/dev/i2c-1", file := 3 } : I2CBus).Close
        (CloseRes.eintr ::
          (List.replicate 1 CloseRes.eintr ++ CloseRes.ok :: []))).2).length = 3 ∧
    (((sBus.Read [0, 0, 0, 0] 4 0x50 sReadShort).evs).filter Ev.isReadCall).length = 1 :=
  ⟨(c6_close_retry_amended { busfile := "/dev/i2c-1", file := 3 } 1 CloseRes.ok
      [] [] [] [] [] 0 0x50 sReadShort sWriteOk).1 (by decide) (by decide),
   (c6_close_retry_amended sBus 1 CloseRes.ok [] [] [] [0, 0, 0, 0] [] 4 0x50
      sReadShort sWriteOk).2.2.2.1 (by decide) (by decide)⟩

/-- C7: two threads concurrently calling `Write` on the same bus never
interleave: every interleaving of the two calls' action sequences (mutex
acquisition, platform calls, mutex release) that respects the mutex
semantics is one call's full sequence followed by the other's — in
particular the second call's `::open` cannot occur before the first call's
`::close` has completed, because each `Write` holds the bus mutex for its
whole open-operate-close duration. -/
theorem c7_writes_serialize (bus : I2CBus) (d1 d2 : List UInt8) (l1 l2 : Int)
    (a1 a2 : UInt8) (e1 e2 : WriteEnv) (zs : List (Bool × LAct))
    (h : Ilv (writeSession bus d1 l1 a1 e1) (writeSession bus d2 l2 a2 e2) zs)
    (hv : mutexOk none zs = true) :
    zs = tagAll false (writeSession bus d1 l1 a1 e1) ++
          tagAll true (writeSession bus d2 l2 a2 e2) ∨
    zs = tagAll true (writeSession bus d2 l2 a2 e2) ++
          tagAll false (writeSession bus d1 l1 a1 e1) :=
  mutex_serializes (bus.Write d1 l1 a1 e1).evs (bus.Write d2 l2 a2 e2).evs zs h hv

/-- Witness for C7: a concrete mutex-respecting interleaving of two
one-byte writes to addresses 0x50 and 0x51 is serialized. -/
theorem c7_witness :
    tagAll false (writeSession sBus [0x10] 1 0x50 sWriteOk) ++
        tagAll true (writeSession sBus [0x20] 1 0x51 sWriteOk) =
      tagAll false (writeSession sBus [0x10] 1 0x50 sWriteOk) ++
        tagAll true (writeSession sBus [0x20] 1 0x51 sWriteOk) ∨
    tagAll false (writeSession sBus [0x10] 1 0x50 sWriteOk) ++
        tagAll true (writeSession sBus [0x20] 1 0x51 sWriteOk) =
      tagAll true (writeSession sBus [0x20] 1 0x51 sWriteOk) ++
        tagAll false (writeSession sBus [0x10] 1 0x50 sWriteOk) :=
  c7_writes_serialize sBus [0x10] [0x20] 1 1 0x50 0x51 sWriteOk sWriteOk _
    (ilv_append _ _) (by decide)

/-- C8: the string overload `Write(dat, addr)` hands the platform write the
raw payload bytes with the payload's byte length `dat.size()` as the
requested count, succeeds exactly when the platform-reported count equals
that length, throws a generic exception on any mismatch, and classifies
failures (generic vs not-found) identically to the buffer `Write` called
with `dat.size()` as length. -/
theorem c8_string_write (bus : I2CBus) (dat : List UInt8) (addr : UInt8)
    (env : WriteEnv) :
    (((bus.WriteStr dat addr env).err).map I2CError.kind =
      ((bus.Write dat (dat.length : Int) addr env).err).map I2CError.kind) ∧
    (0 ≤ env.openEnv.openRes → 0 ≤ env.openEnv.ioctlRes →
      ((bus.WriteStr dat addr env).evs).filter Ev.isWriteCall =
        [Ev.writeCall env.openEnv.openRes dat (dat.length : Int) env.writeRet] ∧
      ((bus.WriteStr dat addr env).err = none ↔
        env.writeRet = (dat.length : Int)) ∧
      (env.writeRet ≠ (dat.length : Int) →
        ∃ e, (bus.WriteStr dat addr env).err = some e ∧
          e.kind = ExcKind.generic)) := by
  constructor
  · rw [WriteStr_err_eq, Write_err_eq]
    by_cases h1 : env.openEnv.openRes < 0
    · simp [h1]
    · by_cases h2 : env.openEnv.ioctlRes < 0
      · simp [h1, h2]
      · by_cases h3 : env.writeRet = (dat.length : Int) <;>
          simp [h1, h2, h3, excWriteStrLen, excWriteLen, I2CException.make]
  · intro h1 h2
    have h1n : ¬ env.openEnv.openRes < 0 := by omega
    have h2n : ¬ env.openEnv.ioctlRes < 0 := by omega
    refine ⟨?_, ?_, ?_⟩
    · rw [WriteStr_evs_eq bus dat addr env h1 h2]
      simp [Ev.isWriteCall]
      intro a ha
      obtain ⟨f, c, rfl⟩ := Close_mem _ _ a ha
      rfl
    · rw [WriteStr_err_eq]
      by_cases h3 : env.writeRet = (dat.length : Int) <;> simp [h1n, h2n, h3]
    · intro h3
      refine ⟨excWriteStrLen env.openEnv.now, ?_, rfl⟩
      rw [WriteStr_err_eq]
      simp [h1n, h2n, h3]

/-- Witness for C8: writing the two-byte payload 0x41 0x42 while the
platform reports only 1 byte written yields exactly one platform write call
carrying the payload bytes and the length 2, and a generic failure. -/
theorem c8_witness :
    ((sBus.WriteStr [0x41, 0x42] 0x50 sWriteOk).evs).filter Ev.isWriteCall =
      [Ev.writeCall 3 [0x41, 0x42] 2 1] ∧
    (∃ e, (sBus.WriteStr [0x41, 0x42] 0x50 sWriteOk).err = some e ∧
      e.kind = ExcKind.generic) :=
  ⟨((c8_string_write sBus [0x41, 0x42] 0x50 sWriteOk).2
      (by decide) (by decide)).1,
   ((c8_string_write sBus [0x41, 0x42] 0x50 sWriteOk).2
      (by decide) (by decide)).2.2 (by decide)⟩

/-- C9: the convenience `Xfer(addr, idat, ilen, i2caddr)` — declared in the
header but with no definition in the repository, modelled from the spec as
delegation — coincides with the general `Xfer([addr], 1, idat, ilen,
i2caddr)` on every input, and inherits its semantics: when the single-byte
write phase reports a count other than 1 it performs no platform read,
throws the generic write-length exception and leaves the descriptor closed,
and when the write phase reports 1 its trace carries exactly the one-byte
platform write of `[addr]`. -/
theorem c9_xfer_addr_variant (bus : I2CBus) (addr : UInt8) (ibuf : List UInt8)
    (ilen : Int) (i2caddr : UInt8) (env : XferEnv) :
    bus.XferAddr addr ibuf ilen i2caddr env =
      bus.Xfer [addr] 1 ibuf ilen i2caddr env ∧
    (0 ≤ env.openEnv.openRes → 0 ≤ env.openEnv.ioctlRes → env.writeRet ≠ 1 →
      ((bus.XferAddr addr ibuf ilen i2caddr env).evs).filter Ev.isReadCall = [] ∧
      (bus.XferAddr addr ibuf ilen i2caddr env).err =
        some (excXferWriteLen env.openEnv.now) ∧
      ((bus.XferAddr addr ibuf ilen i2caddr env).bus).file = -1) ∧
    (0 ≤ env.openEnv.openRes → 0 ≤ env.openEnv.ioctlRes → env.writeRet = 1 →
      ((bus.XferAddr addr ibuf ilen i2caddr env).evs).filter Ev.isWriteCall =
        [Ev.writeCall env.openEnv.openRes [addr] 1 env.writeRet]) := by
  refine ⟨rfl, ?_, ?_⟩
  · intro h1 h2 h3
    have h1n : ¬ env.openEnv.openRes < 0 := by omega
    have h2n : ¬ env.openEnv.ioctlRes < 0 := by omega
    refine ⟨?_, ?_, ?_⟩
    · show ((bus.Xfer [addr] 1 ibuf ilen i2caddr env).evs).filter Ev.isReadCall = []
      rw [Xfer_evs_shortWrite bus [addr] 1 ibuf ilen i2caddr env h1 h2 h3]
      simp [Ev.isReadCall]
      intro a ha
      obtain ⟨f, c, rfl⟩ := Close_mem _ _ a ha
      rfl
    · show (bus.Xfer [addr] 1 ibuf ilen i2caddr env).err = _
      rw [Xfer_err_eq]
      simp [h1n, h2n, h3]
    · exact Xfer_file_eq bus [addr] 1 ibuf ilen i2caddr env (Or.inr h1)
  · intro h1 h2 h3
    show ((bus.Xfer [addr] 1 ibuf ilen i2caddr env).evs).filter Ev.isWriteCall = _
    rw [Xfer_evs_afterWrite bus [addr] 1 ibuf ilen i2caddr env h1 h2 h3]
    simp [Ev.isWriteCall]
    intro a ha
    obtain ⟨f, c, rfl⟩ := Close_mem _ _ a ha
    rfl

/-- Witness for C9: a transfer whose single-byte write reports 0 bytes
performs no read, fails generically and closes the descriptor; one whose
write reports 1 byte carries exactly the platform write of the address
byte. -/
theorem c9_witness :
    (((sBus.XferAddr 0x00 [0, 0] 2 0x50 sXferShortWrite).evs).filter
        Ev.isReadCall = [] ∧
      (sBus.XferAddr 0x00 [0, 0] 2 0x50 sXferShortWrite).err =
        some (excXferWriteLen 1000) ∧
      ((sBus.XferAddr 0x00 [0, 0] 2 0x50 sXferShortWrite).bus).file = -1) ∧
    ((sBus.XferAddr 0x00 [0, 0] 2 0x50 sXferShortRead).evs).filter
        Ev.isWriteCall = [Ev.writeCall 3 [0x00] 1 1] :=
  ⟨(c9_xfer_addr_variant sBus 0x00 [0, 0] 2 0x50 sXferShortWrite).2.1
      (by decide) (by decide) (by decide),
   (c9_xfer_addr_variant sBus 0x00 [0, 0] 2 0x50 sXferShortRead).2.2
      (by decide) (by decide) (by decide)⟩

/-- C10: when `Read(data, len, addr)` fails with the read-length-mismatch
exception, the bytes the platform read call did transfer have already been
stored at the front of the caller's buffer when the exception is thrown:
the output buffer is the transferred bytes followed by the untouched tail
of the original buffer, not a rollback to the original contents. -/
theorem c10_read_partial_buffer (bus : I2CBus) (buf : List UInt8) (len : Int)
    (addr : UInt8) (env : ReadEnv)
    (h1 : 0 ≤ env.openEnv.openRes) (h2 : 0 ≤ env.openEnv.ioctlRes)
    (h3 : env.readRet ≠ len) :
    (bus.Read buf len addr env).err = some (excReadLen env.openEnv.now) ∧
    (bus.Read buf len addr env).out =
      env.readBytes ++ buf.drop env.readBytes.length := by
  have h1n : ¬ env.openEnv.openRes < 0 := by omega
  have h2n : ¬ env.openEnv.ioctlRes < 0 := by omega
  constructor
  · rw [Read_err_eq]
    simp [h1n, h2n, h3]
  · rw [Read_out_eq bus buf len addr env h1 h2]
    rfl

/-- Witness for C10: a 4-byte read on the all-zero buffer that transfers
only the two bytes 0xAA 0xBB throws, and the buffer afterwards holds those
two bytes followed by the untouched zeros — partially modified, not rolled
back. -/
theorem c10_witness :
    (sBus.Read [0, 0, 0, 0] 4 0x50 sReadShort).err = some (excReadLen 1000) ∧
    (sBus.Read [0, 0, 0, 0] 4 0x50 sReadShort).out = [0xAA, 0xBB, 0, 0] :=
  c10_read_partial_buffer sBus [0, 0, 0, 0] 4 0x50 sReadShort
    (by decide) (by decide) (by decide)

end bbbi2c
